import Mathlib

/-!
Verification of the gns3-server slice: the process supervisor in
`gns3server/server.py` and the Ethernet-hub endpoint layer in
`gns3server/endpoints/compute/ethernet_hub_nodes.py`.

The supervisor is embedded as trace-producing functions: each observable
step of the Python code (a module's `unload` starting or finishing,
`loop.stop()`, `os.execv`, a critical log, a signal-handler installation,
...) becomes an `Event`, and each Python routine becomes a Lean function
returning the list of events it performs, in order, together with a flag
recording whether it ran to completion or an exception escaped.

The endpoint layer is embedded in state-passing style over `HubState`.
Operations of the Dynamips compute layer that are called by the endpoint
handlers but whose code is not part of this slice (`get_node`,
`remove_nio`, `nio.delete`, `add_nio`, `start_capture`, `stop_capture`,
`get_nio`) are modelled from the spec, as marked on each definition.
-/

/-- Observable steps of the supervisor (`server.py`). -/
inductive Event where
  | unloadStart (m : Nat)
  | unloadDone (m : Nat)
  | loopStop
  | execvCall (exe : String) (args : List String)
  | logCritical
  | serverCreated
  | registerModule (m : Nat)
  | installSignal (s : String)
  | scheduleReloadWatch
  | runForever
  deriving DecidableEq, Repr

/-- Embedding of `Server._stop_application` (server.py lines 65-75).
The registry `MODULES` is a list of module identifiers; `fails m = true`
means module `m`'s `unload()` raises.  The Python loop

    for module in MODULES:
        m = module.instance()
        yield from m.unload()
    self._loop.stop()

has no exception handling: a raising `unload` propagates out of the loop.
The result is the event trace together with `true` when the coroutine ran
to completion (reaching `loop.stop()`), `false` when an exception escaped. -/
def stopApplication (fails : Nat → Bool) : List Nat → List Event × Bool
  | [] => ([Event.loopStop], true)
  | m :: rest =>
    if fails m then ([Event.unloadStart m], false)
    else
      let p := stopApplication fails rest
      (Event.unloadStart m :: Event.unloadDone m :: p.1, p.2)

/-- The trace of a fully successful unload pass over a module registry:
each module's unload starts and completes before the next starts. -/
def unloadTrace : List Nat → List Event
  | [] => []
  | m :: rest => Event.unloadStart m :: Event.unloadDone m :: unloadTrace rest

/-- Signal names registered by `Server._signal_handling` (server.py lines
82-87): `SIGTERM` and `SIGINT` always, plus `SIGBREAK` on Windows and
`SIGHUP`/`SIGQUIT` elsewhere. -/
def signalNames (windows : Bool) : List String :=
  if windows then ["SIGTERM", "SIGINT", "SIGBREAK"]
  else ["SIGTERM", "SIGINT", "SIGHUP", "SIGQUIT"]

/-- Runtime state of the installed signal handlers.  At registration time
`_signal_handling` builds, once per signal name, the callback
`functools.partial(asyncio.async, signal_handler(signal_name))`: the
coroutine object `signal_handler(signal_name)` is created once, at
registration.  `consumed` records the signal names whose coroutine has
already been scheduled; `shutdownRuns` counts how many times the
graceful-shutdown routine `_stop_application` has been started. -/
structure SignalState where
  consumed : List String
  shutdownRuns : Nat
  deriving DecidableEq, Repr

/-- One delivery of signal `s` (server.py lines 77-96).  Delivery invokes
the stored callback, scheduling the signal's single coroutine object.  On
the first delivery of `s` the coroutine runs the shutdown routine.  A
later delivery of the same `s` re-wraps the same, already-consumed
coroutine object: the routine is not executed again from the start (the
coroutine cannot be restarted), so no new shutdown run begins.  A name
that was never registered has no handler and is ignored. -/
def deliverSignal (windows : Bool) (st : SignalState) (s : String) : SignalState :=
  if s ∈ signalNames windows then
    if s ∈ st.consumed then st
    else { consumed := s :: st.consumed, shutdownRuns := st.shutdownRuns + 1 }
  else st

/-- Fold a whole sequence of signal deliveries over the handler state. -/
def deliverAll (windows : Bool) : SignalState → List String → SignalState
  | st, [] => st
  | st, s :: rest => deliverAll windows (deliverSignal windows st s) rest

/-- The handler state right after `_signal_handling` returns: no
coroutine consumed, no shutdown run. -/
def initialSignalState : SignalState := ⟨[], 0⟩

/-- A loaded source unit as seen by one scan of `Server._reload_hook`
(server.py lines 98-124): whether the `sys.modules` entry is an ordinary
module, its `__file__` (absent for built-ins), and its modification time. -/
structure ModFile where
  isModule : Bool
  path : Option String
  mtime : Nat
  deriving DecidableEq, Repr

/-- Whether one scan of `_reload_hook` treats `f` as modified: an ordinary
module with a file path whose mtime is strictly newer than the process
start time. -/
def isModified (startTime : Nat) (f : ModFile) : Bool :=
  f.isModule && f.path.isSome && decide (startTime < f.mtime)

/-- Embedding of one scan of `Server._reload_hook`: the loop over
`sys.modules` schedules, via `asyncio.async(reload())`, one fresh reload
task for every modified file it sees (each call `reload()` builds a new
coroutine object).  The result is the number of reload tasks scheduled by
this scan.  No flag about an in-flight reload or shutdown is consulted,
and the hook unconditionally re-arms itself with `call_later(1, ...)`. -/
def reloadHookScan (startTime : Nat) : List ModFile → Nat
  | [] => 0
  | f :: rest =>
    if f.isModule then
      match f.path with
      | none => reloadHookScan startTime rest
      | some _ =>
        if startTime < f.mtime then reloadHookScan startTime rest + 1
        else reloadHookScan startTime rest
    else reloadHookScan startTime rest

/-- Embedding of the `reload` coroutine inside `_reload_hook` (server.py
lines 100-105): `yield from self._stop_application()` and then
`os.execv(sys.executable, [sys.executable] + sys.argv)`.  If
`_stop_application` raises, `execv` is not reached; otherwise the process
image is replaced (modelled as the terminal `execvCall` event, after which
nothing of the old process survives). -/
def reloadCoroutine (fails : Nat → Bool) (ms : List Nat)
    (exe : String) (argv : List String) : List Event × Bool :=
  let p := stopApplication fails ms
  if p.2 then (p.1 ++ [Event.execvCall exe (exe :: argv)], true) else p

/-- Configuration and environment read by `Server.run`. -/
structure RunConfig where
  ssl : Bool
  debug : Bool
  sslLoadOk : Bool
  bindOk : Bool
  deriving DecidableEq, Repr

/-- How `Server.run` ends in the embedding. -/
inductive RunOutcome where
  | systemExit
  | stopped
  | serving
  deriving DecidableEq, Repr

/-- Embedding of `Server.run` (server.py lines 142-179), as the ordered
trace of its observable steps plus its outcome.

1. if `ssl` is set and the platform is Windows: `log.critical` and
   `raise SystemExit` before anything else;
2. if `ssl` is set otherwise, `_create_ssl_context` loads the
   certificate/key pair and raises `SystemExit` on failure;
3. every module of `MODULES` is registered with the port manager;
4. `_run_application` is awaited: on success a server is created, on
   `OSError` it logs critical, calls `loop.stop()` and returns — and
   `run` then proceeds to `_signal_handling()` regardless;
5. `_signal_handling` installs a handler per platform signal name;
6. with the debug flag, the reload watch is scheduled;
7. `run_forever` is entered; with the loop already stopped by step 4 it
   returns promptly (outcome `stopped`), else it serves (`serving`). -/
def serverRun (windows : Bool) (cfg : RunConfig) (ms : List Nat) :
    List Event × RunOutcome :=
  if cfg.ssl && windows then ([Event.logCritical], RunOutcome.systemExit)
  else if cfg.ssl && !cfg.sslLoadOk then ([Event.logCritical], RunOutcome.systemExit)
  else
    let regs := ms.map Event.registerModule
    let sigs := (signalNames windows).map Event.installSignal
    let watch := if cfg.debug then [Event.scheduleReloadWatch] else []
    if cfg.bindOk then
      (regs ++ [Event.serverCreated] ++ sigs ++ watch ++ [Event.runForever],
        RunOutcome.serving)
    else
      (regs ++ [Event.logCritical, Event.loopStop] ++ sigs ++ watch
        ++ [Event.runForever], RunOutcome.stopped)

/-- Errors surfaced by the endpoint layer. -/
inductive Err where
  | notFound
  | conflict
  deriving DecidableEq, Repr

/-- State of the compute side touched by the Ethernet-hub endpoints.
Nodes are identified by `(project, node)` pairs; NIO resources by `Nat`
identifiers.  `mapping node port` is the node's port mapping (at most one
attached endpoint per port), `capturing nio` whether a capture session is
active on that endpoint, `released` which endpoint resources have been
deleted, and `next_nio` the next fresh endpoint identifier. -/
structure HubState where
  nodes : List (Nat × Nat)
  mapping : Nat → Nat → Option Nat
  capturing : Nat → Bool
  released : List Nat
  next_nio : Nat

/-- Modelled from the spec: `Dynamips.get_node(node_id, project_id)`
(`getNode -> Node | NotFound`): resolves the node or fails not-found.
The node's code is not part of this slice. -/
def get_node (s : HubState) (proj node : Nat) : Option Unit :=
  if (proj, node) ∈ s.nodes then some () else none

/-- Modelled from the spec: `node.remove_nio(port)` of the compute layer
(Detach, first half): removes the endpoint from the node's port mapping
and returns it; a Capture Session active on the endpoint is implicitly
stopped as part of the removal (the recording cannot outlive its
endpoint); not-found if the port holds no endpoint. -/
def remove_nio (s : HubState) (node port : Nat) : Except Err (HubState × Nat) :=
  match s.mapping node port with
  | none => Except.error Err.notFound
  | some nio =>
    Except.ok
      ({ s with
          mapping := fun n p => if n = node ∧ p = port then none else s.mapping n p,
          capturing := fun m => if m = nio then false else s.capturing m }, nio)

/-- Modelled from the spec: `nio.delete()` — releases the endpoint
resource. -/
def nio_delete (s : HubState) (nio : Nat) : HubState :=
  { s with released := nio :: s.released }

/-- Modelled from the spec: `node.add_nio(nio, port)` — binds the endpoint
into the node's port mapping; conflict if the port already holds one. -/
def add_nio (s : HubState) (node port nio : Nat) : Except Err HubState :=
  match s.mapping node port with
  | some _ => Except.error Err.conflict
  | none =>
    Except.ok
      { s with
          mapping := fun n p => if n = node ∧ p = port then some nio else s.mapping n p }

/-- Embedding of the endpoint handler `create_nio` (ethernet_hub_nodes.py
lines 148-162): resolve the node, have the manager materialize a fresh
endpoint from the transport configuration, then `add_nio` it at
`port_number`.  The `adapter` path parameter is accepted and never used by
the body.  Returns the new state and the endpoint identifier. -/
def create_nio (s : HubState) (proj node adapter port : Nat) (cfg : Nat) :
    Except Err (HubState × Nat) :=
  match get_node s proj node with
  | none => Except.error Err.notFound
  | some _ =>
    let nio := s.next_nio
    let s1 := { s with next_nio := s.next_nio + 1 }
    match add_nio s1 node port nio with
    | Except.error e => Except.error e
    | Except.ok s2 => Except.ok (s2, nio)

/-- Embedding of the endpoint handler `delete_nio` (ethernet_hub_nodes.py
lines 165-177): resolve the node, `await node.remove_nio(port_number)`,
then `await nio.delete()`.  The `adapter` path parameter is accepted and
never used by the body. -/
def delete_nio (s : HubState) (proj node adapter port : Nat) : Except Err HubState :=
  match get_node s proj node with
  | none => Except.error Err.notFound
  | some _ =>
    match remove_nio s node port with
    | Except.error e => Except.error e
    | Except.ok (s1, nio) => Except.ok (nio_delete s1 nio)

/-- The state of `delete_nio` at the cooperative-scheduler suspension
point of `await nio.delete()`: `remove_nio` has completed, the release has
not.  Under the single-threaded cooperative model, other operations run at
exactly such suspension points and observe this state. -/
def delete_nio_mid (s : HubState) (proj node adapter port : Nat) :
    Except Err (HubState × Nat) :=
  match get_node s proj node with
  | none => Except.error Err.notFound
  | some _ => remove_nio s node port

/-- Modelled from the spec: per-project capture working directory (its
contents are external; only its use in path construction matters here). -/
def capture_working_directory (proj : Nat) : String :=
  "projects/" ++ toString proj ++ "/captures"

/-- Embedding of the endpoint handler `start_capture` (ethernet_hub_nodes.py
lines 180-192): resolve the node, join the project capture directory with
the caller's file name, then `node.start_capture(port, path, link_type)` —
modelled from the spec: not-found if the port holds no endpoint, conflict
if a capture is already running on it.  The `adapter` path parameter is
accepted and never used by the body. -/
def start_capture (s : HubState) (proj node adapter port : Nat)
    (fileName : String) (linkType : Nat) : Except Err (HubState × String) :=
  match get_node s proj node with
  | none => Except.error Err.notFound
  | some _ =>
    let path := capture_working_directory proj ++ "/" ++ fileName
    match s.mapping node port with
    | none => Except.error Err.notFound
    | some nio =>
      if s.capturing nio then Except.error Err.conflict
      else
        Except.ok
          ({ s with capturing := fun m => if m = nio then true else s.capturing m },
            path)

/-- Embedding of the endpoint handler `stop_capture` (ethernet_hub_nodes.py
lines 195-206): resolve the node, then `node.stop_capture(port)` —
modelled from the spec: stopping with no active capture is a not-found
caller error.  The `adapter` path parameter is accepted and never used by
the body. -/
def stop_capture (s : HubState) (proj node adapter port : Nat) : Except Err HubState :=
  match get_node s proj node with
  | none => Except.error Err.notFound
  | some _ =>
    match s.mapping node port with
    | none => Except.error Err.notFound
    | some nio =>
      if s.capturing nio then
        Except.ok { s with capturing := fun m => if m = nio then false else s.capturing m }
      else Except.error Err.notFound

/-- Embedding of the endpoint handler `stream_pcap_file`
(ethernet_hub_nodes.py lines 209-221): resolve the node, `node.get_nio(port)`
(modelled from the spec: the attached endpoint or not-found), then stream
its capture file.  The `adapter` path parameter is accepted and never used
by the body.  Returns the endpoint whose file is streamed. -/
def stream_pcap_file (s : HubState) (proj node adapter port : Nat) : Except Err Nat :=
  match get_node s proj node with
  | none => Except.error Err.notFound
  | some _ =>
    match s.mapping node port with
    | none => Except.error Err.notFound
    | some nio => Except.ok nio

/-- Embedding of the endpoint handler `start_ethernet_hub`
(ethernet_hub_nodes.py lines 112-121): the body only resolves the node
(not-found if absent); hubs are always on, so on success nothing changes
and the unchanged state is returned. -/
def start_ethernet_hub (s : HubState) (proj node : Nat) : Except Err HubState :=
  match get_node s proj node with
  | none => Except.error Err.notFound
  | some _ => Except.ok s

/-- Embedding of the endpoint handler `stop_ethernet_hub`
(ethernet_hub_nodes.py lines 124-133): identical body to start. -/
def stop_ethernet_hub (s : HubState) (proj node : Nat) : Except Err HubState :=
  match get_node s proj node with
  | none => Except.error Err.notFound
  | some _ => Except.ok s

/-- Embedding of the endpoint handler `suspend_ethernet_hub`
(ethernet_hub_nodes.py lines 136-145): identical body to start. -/
def suspend_ethernet_hub (s : HubState) (proj node : Nat) : Except Err HubState :=
  match get_node s proj node with
  | none => Except.error Err.notFound
  | some _ => Except.ok s

/-- A concrete compute state for witnesses and counterexamples: project 0
holds node 0, whose port 0 holds endpoint 5 with an active capture. -/
def hubS0 : HubState where
  nodes := [(0, 0)]
  mapping := fun n p => if n = 0 ∧ p = 0 then some 5 else none
  capturing := fun m => m = 5
  released := []
  next_nio := 6

/-- The compute state `hubS0` at the suspension point inside detach:
endpoint 5 removed from the port mapping, its capture stopped, the
resource not yet released. -/
def hubS0mid : HubState :=
  { hubS0 with
      mapping := fun n p => if n = 0 ∧ p = 0 then none else hubS0.mapping n p,
      capturing := fun m => if m = 5 then false else hubS0.capturing m }

/-- Helper: when no module's unload raises, `_stop_application` performs
exactly the ordered unload trace and then stops the loop. -/
theorem stopApplication_of_no_failure (fails : Nat → Bool) (ms : List Nat)
    (h : ∀ m ∈ ms, fails m = false) :
    stopApplication fails ms = (unloadTrace ms ++ [Event.loopStop], true) := by
  induction ms with
  | nil => rfl
  | cons m rest ih =>
    have hm : fails m = false := h m (List.mem_cons_self m rest)
    have hrest := ih fun x hx => h x (List.mem_cons_of_mem m hx)
    simp [stopApplication, unloadTrace, hm, hrest]

/-- Helper: if `_stop_application` ran to completion, it performed the
full ordered unload trace. -/
theorem stopApplication_ok_eq (fails : Nat → Bool) (ms : List Nat)
    (h : (stopApplication fails ms).2 = true) :
    stopApplication fails ms = (unloadTrace ms ++ [Event.loopStop], true) := by
  induction ms with
  | nil => rfl
  | cons m rest ih =>
    by_cases hm : fails m = true
    · simp [stopApplication, hm] at h
    · have hm' : fails m = false := by
        cases hfm : fails m
        · rfl
        · exact absurd hfm hm
      have h2 : (stopApplication fails rest).2 = true := by
        simpa [stopApplication, hm'] using h
      simp [stopApplication, unloadTrace, hm', ih h2]

/-- Helper: `_stop_application` never performs an `execv`. -/
theorem stopApplication_execv_not_mem (fails : Nat → Bool) (ms : List Nat)
    (e : String) (a : List String) :
    Event.execvCall e a ∉ (stopApplication fails ms).1 := by
  induction ms with
  | nil => simp [stopApplication]
  | cons m rest ih =>
    by_cases hm : fails m = true
    · simp [stopApplication, hm]
    · have hm' : fails m = false := by
        cases hfm : fails m
        · rfl
        · exact absurd hfm hm
      simp [stopApplication, hm']
      exact ih

/-- Helper: an unload trace contains no `execv` and no `loopStop`. -/
theorem unloadTrace_only_unloads (ms : List Nat) (e : String) (a : List String) :
    Event.execvCall e a ∉ unloadTrace ms ∧ Event.loopStop ∉ unloadTrace ms := by
  induction ms with
  | nil => simp [unloadTrace]
  | cons m rest ih => simpa [unloadTrace] using ih

/-- C1 counterexample: with registry `[0, 1]` and module 0's unload
raising, module 1's unload is never invoked and the loop-stop step is
never reached — the exception escapes the unprotected `for` loop of
`_stop_application`, so the claimed best-effort behaviour does not hold. -/
theorem stop_application_failure_aborts_counterexample :
    stopApplication (fun m => m == 0) [0, 1] = ([Event.unloadStart 0], false) ∧
    Event.unloadStart 1 ∉ (stopApplication (fun m => m == 0) [0, 1]).1 ∧
    Event.loopStop ∉ (stopApplication (fun m => m == 0) [0, 1]).1 := by
  decide

/-- C1 (amended): a raising unload aborts the remainder of shutdown.  If
the modules before `m` all unload cleanly and `m`'s unload raises, the
trace of `_stop_application` ends at the start of `m`'s unload: the
modules after `m` are not unloaded and the scheduler stop is not reached. -/
theorem stop_application_aborts_on_failure (fails : Nat → Bool)
    (ms₁ ms₂ : List Nat) (m : Nat)
    (h₁ : ∀ x ∈ ms₁, fails x = false) (h₂ : fails m = true) :
    stopApplication fails (ms₁ ++ m :: ms₂) =
      (unloadTrace ms₁ ++ [Event.unloadStart m], false) := by
  induction ms₁ with
  | nil => simp [stopApplication, unloadTrace, h₂]
  | cons a rest ih =>
    have ha : fails a = false := h₁ a (List.mem_cons_self a rest)
    have hrest := ih fun x hx => h₁ x (List.mem_cons_of_mem a hx)
    simp [stopApplication, unloadTrace, ha, hrest]

/-- C1 witness: concrete instance of the amended statement, with module 1
failing inside the registry `[0, 1, 2]`. -/
theorem stop_application_aborts_on_failure_witness :
    stopApplication (fun m => m == 1) ([0] ++ 1 :: [2]) =
      (unloadTrace [0] ++ [Event.unloadStart 1], false) :=
  stop_application_aborts_on_failure (fun m => m == 1) [0] [2] 1
    (by decide) (by decide)

/-- C2: when every module's unload completes, `_stop_application` unloads
the modules in exactly registration order, each unload completing before
the next starts, and stops the scheduler only after the last unload has
completed (the `loopStop` event is the final event of the trace). -/
theorem stop_application_ordered_shutdown (fails : Nat → Bool) (ms : List Nat)
    (h : ∀ m ∈ ms, fails m = false) :
    stopApplication fails ms = (unloadTrace ms ++ [Event.loopStop], true) :=
  stopApplication_of_no_failure fails ms h

/-- C2 witness: concrete three-module registry, no failures. -/
theorem stop_application_ordered_shutdown_witness :
    stopApplication (fun _ => false) [3, 1, 2] =
      ([Event.unloadStart 3, Event.unloadDone 3, Event.unloadStart 1,
        Event.unloadDone 1, Event.unloadStart 2, Event.unloadDone 2,
        Event.loopStop], true) := by
  have h := stop_application_ordered_shutdown (fun _ => false) [3, 1, 2]
    (by decide)
  simpa [unloadTrace] using h

/-- C5: the `reload` coroutine replaces the process image only after the
full ordered shutdown has completed.  (a) With every unload completing,
its trace is the ordered unload trace, then the scheduler stop, then —
last, with nothing after it — `execv` of the same executable with the
same arguments.  (b) Whenever an `execv` event occurs at all, it carries
exactly the original executable and arguments and the whole trace is the
completed shutdown followed by that final `execv`. -/
theorem reload_execs_after_full_shutdown (fails : Nat → Bool) (ms : List Nat)
    (exe : String) (argv : List String) :
    ((∀ m ∈ ms, fails m = false) →
      reloadCoroutine fails ms exe argv =
        (unloadTrace ms ++ [Event.loopStop, Event.execvCall exe (exe :: argv)],
          true)) ∧
    (∀ e a, Event.execvCall e a ∈ (reloadCoroutine fails ms exe argv).1 →
      e = exe ∧ a = exe :: argv ∧
      (reloadCoroutine fails ms exe argv).1 =
        unloadTrace ms ++ [Event.loopStop, Event.execvCall exe (exe :: argv)]) := by
  constructor
  · intro h
    have hs := stopApplication_of_no_failure fails ms h
    simp [reloadCoroutine, hs]
  · intro e a hmem
    by_cases hok : (stopApplication fails ms).2 = true
    · have hs := stopApplication_ok_eq fails ms hok
      have htr : (reloadCoroutine fails ms exe argv).1 =
          unloadTrace ms ++ [Event.loopStop, Event.execvCall exe (exe :: argv)] := by
        simp [reloadCoroutine, hs]
      rw [htr] at hmem
      rcases List.mem_append.mp hmem with hin | hin
      · exact absurd hin (unloadTrace_only_unloads ms e a).1
      · rcases List.mem_cons.mp hin with hin | hin
        · exact absurd hin (by simp)
        · have : Event.execvCall e a = Event.execvCall exe (exe :: argv) := by
            simpa using hin
          have he : e = exe := by injection this
          have ha : a = exe :: argv := by injection this
          exact ⟨he, ha, htr⟩
    · have htr : reloadCoroutine fails ms exe argv = stopApplication fails ms := by
        simp [reloadCoroutine, hok]
      rw [htr] at hmem
      exact absurd hmem (stopApplication_execv_not_mem fails ms e a)

/-- C5 witness: two clean modules; reload performs both unloads, stops the
loop, and execs `py srv` as its final step. -/
theorem reload_execs_after_full_shutdown_witness :
    reloadCoroutine (fun _ => false) [0, 1] "py" ["srv"] =
      (unloadTrace [0, 1] ++
        [Event.loopStop, Event.execvCall "py" ("py" :: ["srv"])], true) :=
  (reload_execs_after_full_shutdown (fun _ => false) [0, 1] "py" ["srv"]).1
    (by decide)

/-- C3 counterexample: delivering `SIGTERM` and then `SIGINT` (two
termination signals in quick succession) starts the graceful-shutdown
routine twice — each registered signal name owns its own handler
coroutine, and nothing makes a pending shutdown suppress the other
handlers, so shutdown is not executed at most once per process. -/
theorem signal_shutdown_runs_twice_counterexample :
    (deliverAll false initialSignalState ["SIGTERM", "SIGINT"]).shutdownRuns = 2 := by
  decide

/-- Helper invariant for the signal model: along any delivery sequence the
consumed signal names stay duplicate-free, stay within the registered
names, and the number of shutdown runs equals their count. -/
theorem deliverAll_invariant (windows : Bool) (seq : List String)
    (st : SignalState) (h1 : st.consumed.Nodup)
    (h2 : ∀ x ∈ st.consumed, x ∈ signalNames windows)
    (h3 : st.shutdownRuns = st.consumed.length) :
    (deliverAll windows st seq).consumed.Nodup ∧
    (∀ x ∈ (deliverAll windows st seq).consumed, x ∈ signalNames windows) ∧
    (deliverAll windows st seq).shutdownRuns =
      (deliverAll windows st seq).consumed.length := by
  induction seq generalizing st with
  | nil => exact ⟨h1, h2, h3⟩
  | cons s rest ih =>
    have hstep : deliverAll windows st (s :: rest) =
        deliverAll windows (deliverSignal windows st s) rest := rfl
    rw [hstep]
    by_cases hs : s ∈ signalNames windows
    · by_cases hc : s ∈ st.consumed
      · have he : deliverSignal windows st s = st := by
          simp [deliverSignal, hs, hc]
        rw [he]
        exact ih st h1 h2 h3
      · have he : deliverSignal windows st s =
            ⟨s :: st.consumed, st.shutdownRuns + 1⟩ := by
          simp [deliverSignal, hs, hc]
        rw [he]
        refine ih ⟨s :: st.consumed, st.shutdownRuns + 1⟩
          (List.nodup_cons.mpr ⟨hc, h1⟩) ?_ (by simp [h3])
        intro x hx
        rcases List.mem_cons.mp hx with hx | hx
        · exact hx ▸ hs
        · exact h2 x hx
    · have he : deliverSignal windows st s = st := by
        simp [deliverSignal, hs]
      rw [he]
      exact ih st h1 h2 h3

/-- C3 (amended): on either platform, every registered signal name can
start the shutdown routine at most once — its handler coroutine is
single-use, so re-delivering an already-consumed signal changes nothing —
and therefore an arbitrary delivery sequence starts shutdown at most as
many times as there are registered signal names (not at most once). -/
theorem signal_shutdown_once_per_signal (windows : Bool) (seq : List String) :
    (deliverAll windows initialSignalState seq).shutdownRuns ≤
      (signalNames windows).length ∧
    ∀ st s, s ∈ st.consumed → deliverSignal windows st s = st := by
  constructor
  · obtain ⟨hd, hsub, hlen⟩ := deliverAll_invariant windows seq initialSignalState
      (by simp [initialSignalState]) (by simp [initialSignalState]) rfl
    rw [hlen]
    exact List.Subperm.length_le (List.subperm_of_subset hd hsub)
  · intro st s hc
    by_cases hs : s ∈ signalNames windows
    · simp [deliverSignal, hs, hc]
    · simp [deliverSignal, hs]

/-- C3 witness: a concrete burst of five deliveries on a POSIX platform
starts shutdown at most four times, and re-delivering a consumed signal
leaves the handler state unchanged. -/
theorem signal_shutdown_once_per_signal_witness :
    (deliverAll false initialSignalState
        ["SIGTERM", "SIGTERM", "SIGINT", "SIGHUP", "SIGTERM"]).shutdownRuns ≤
      (signalNames false).length ∧
    deliverSignal false ⟨["SIGTERM"], 1⟩ "SIGTERM" = ⟨["SIGTERM"], 1⟩ :=
  ⟨(signal_shutdown_once_per_signal false
      ["SIGTERM", "SIGTERM", "SIGINT", "SIGHUP", "SIGTERM"]).1,
    (signal_shutdown_once_per_signal false []).2 ⟨["SIGTERM"], 1⟩ "SIGTERM"
      (by decide)⟩

/-- C4 counterexample: a single scan that observes two modified source
files schedules two reload tasks — `_reload_hook` consults no in-flight
flag, so a second reload is started while the first is pending. -/
theorem reload_hook_two_reloads_counterexample :
    reloadHookScan 10
      [⟨true, some "a.py", 20⟩, ⟨true, some "b.py", 20⟩] = 2 := by
  decide

/-- C4 (amended): one scan of the reload watch schedules exactly one
reload task per loaded ordinary module file whose modification time is
newer than the process start time — with no cap at one and no check for
an in-flight reload or shutdown, so several modified files (in one scan,
or the same files again in the next scan) each start their own reload. -/
theorem reload_hook_schedules_per_modified_file (startTime : Nat)
    (files : List ModFile) :
    reloadHookScan startTime files =
      (files.filter (isModified startTime)).length := by
  induction files with
  | nil => rfl
  | cons f rest ih =>
    rcases f with ⟨im, pa, mt⟩
    cases im
    · simpa [reloadHookScan, isModified, List.filter_cons] using ih
    · cases pa
      · simpa [reloadHookScan, isModified, List.filter_cons] using ih
      · by_cases hlt : startTime < mt
        · simp [reloadHookScan, isModified, List.filter_cons, hlt, ih]
        · simp [reloadHookScan, isModified, List.filter_cons, hlt, ih]

/-- C6 counterexample: with the bind failing (`bindOk = false`, no SSL,
debug on, POSIX), `run` still reaches signal-handler registration and
still schedules the reload watch — the claim that these are never reached
after a bind failure does not hold: `_run_application` swallows the
`OSError`, and `run` proceeds past `run_until_complete` unconditionally. -/
theorem run_bind_failure_counterexample :
    Event.installSignal "SIGTERM" ∈
      (serverRun false ⟨false, true, true, false⟩ [0]).1 ∧
    Event.scheduleReloadWatch ∈
      (serverRun false ⟨false, true, true, false⟩ [0]).1 ∧
    (serverRun false ⟨false, true, true, false⟩ [0]).2 = RunOutcome.stopped := by
  decide

/-- C6 (amended): if binding the listener fails with an OS error (and the
SSL path did not already exit), the failure is logged as critical, no
server is ever created, and the scheduler is stopped — but `run` still
proceeds to install the signal handlers and, when debug is set, to
schedule the reload watch, before `run_forever` returns promptly on the
already-stopped scheduler. -/
theorem run_bind_failure_logs_and_stops (windows : Bool) (cfg : RunConfig)
    (ms : List Nat) (hssl : cfg.ssl = false) (hbind : cfg.bindOk = false) :
    serverRun windows cfg ms =
      (ms.map Event.registerModule ++ [Event.logCritical, Event.loopStop]
        ++ (signalNames windows).map Event.installSignal
        ++ (if cfg.debug then [Event.scheduleReloadWatch] else [])
        ++ [Event.runForever], RunOutcome.stopped) ∧
    Event.serverCreated ∉ (serverRun windows cfg ms).1 := by
  have he : serverRun windows cfg ms =
      (ms.map Event.registerModule ++ [Event.logCritical, Event.loopStop]
        ++ (signalNames windows).map Event.installSignal
        ++ (if cfg.debug then [Event.scheduleReloadWatch] else [])
        ++ [Event.runForever], RunOutcome.stopped) := by
    simp [serverRun, hssl, hbind]
  refine ⟨he, ?_⟩
  rw [he]
  cases hdbg : cfg.debug <;> simp [hdbg, signalNames]

/-- C6 witness: concrete bind failure on POSIX with debug off and one
registered module. -/
theorem run_bind_failure_logs_and_stops_witness :
    serverRun false ⟨false, false, true, false⟩ [7] =
      ([7].map Event.registerModule ++ [Event.logCritical, Event.loopStop]
        ++ (signalNames false).map Event.installSignal
        ++ (if (false : Bool) then [Event.scheduleReloadWatch] else [])
        ++ [Event.runForever], RunOutcome.stopped) :=
  (run_bind_failure_logs_and_stops false ⟨false, false, true, false⟩ [7]
    rfl rfl).1

/-- C10: with the SSL flag enabled on Windows, `run` terminates with
`SystemExit` right after the critical log: its trace is exactly
`[logCritical]`, so no listener bind, no module registration with the
port manager, and no signal-handler installation is ever reached. -/
theorem run_ssl_windows_exits (cfg : RunConfig) (ms : List Nat)
    (hssl : cfg.ssl = true) :
    serverRun true cfg ms = ([Event.logCritical], RunOutcome.systemExit) ∧
    (∀ m, Event.registerModule m ∉ (serverRun true cfg ms).1) ∧
    (∀ s, Event.installSignal s ∉ (serverRun true cfg ms).1) ∧
    Event.serverCreated ∉ (serverRun true cfg ms).1 := by
  have he : serverRun true cfg ms = ([Event.logCritical], RunOutcome.systemExit) := by
    simp [serverRun, hssl]
  refine ⟨he, ?_, ?_, ?_⟩
  · intro m
    rw [he]
    intro hmem
    rcases List.mem_singleton.mp hmem with h
    exact Event.noConfusion h
  · intro s
    rw [he]
    intro hmem
    rcases List.mem_singleton.mp hmem with h
    exact Event.noConfusion h
  · rw [he]
    intro hmem
    rcases List.mem_singleton.mp hmem with h
    exact Event.noConfusion h

/-- C10 witness: concrete Windows configuration with SSL enabled. -/
theorem run_ssl_windows_exits_witness :
    serverRun true ⟨true, false, true, true⟩ [0, 1] =
      ([Event.logCritical], RunOutcome.systemExit) :=
  (run_ssl_windows_exits ⟨true, false, true, true⟩ [0, 1] rfl).1

/-- C7 counterexample: in the concrete state `hubS0` (node 0's port 0
holds endpoint 5 with a capture running), the state at the cooperative
suspension point `await nio.delete()` inside `delete_nio` has the
endpoint already removed from the port mapping (`none`) but not yet
released (`false`) — since other operations run at exactly such
suspension points, the removed-but-not-released state is observable,
contrary to the claim.  (The capture is stopped, `false`, at this point.) -/
theorem detach_partial_state_observable_counterexample :
    (delete_nio_mid hubS0 0 0 3 0).toOption.map
        (fun q => (q.2, q.1.mapping 0 0, decide (q.2 ∈ q.1.released),
          q.1.capturing q.2))
      = some (5, none, false, false) := by
  rfl

/-- C7 (amended): detach is remove-then-release in that order — whenever
`delete_nio` resolves the node and the port holds an endpoint, the
suspension-point state after `node.remove_nio` has the endpoint removed
from the mapping with its capture already stopped and the released set
unchanged, and the final state then additionally has the endpoint
released; released-but-not-removed is never reachable, but the
removed-but-not-released intermediate state exists at the `await`
between the two calls. -/
theorem delete_nio_remove_then_release (s : HubState)
    (proj node adapter port nio : Nat)
    (hn : (proj, node) ∈ s.nodes) (hm : s.mapping node port = some nio) :
    ∀ q, delete_nio_mid s proj node adapter port = Except.ok q →
      q.2 = nio ∧
      q.1.mapping node port = none ∧
      q.1.capturing nio = false ∧
      q.1.released = s.released ∧
      delete_nio s proj node adapter port = Except.ok (nio_delete q.1 q.2) ∧
      nio ∈ (nio_delete q.1 q.2).released ∧
      (nio_delete q.1 q.2).mapping node port = none := by
  intro q hq
  have hg : get_node s proj node = some () := by simp [get_node, hn]
  have hq' : (Except.ok
      ((({ s with
          mapping := fun n p => if n = node ∧ p = port then none else s.mapping n p,
          capturing := fun m => if m = nio then false else s.capturing m },
        nio)) : HubState × Nat) : Except Err (HubState × Nat)) = Except.ok q := by
    rw [← hq]
    simp [delete_nio_mid, hg, remove_nio, hm]
  injection hq' with hq'
  subst hq'
  refine ⟨rfl, by simp, by simp, rfl, ?_, by simp [nio_delete], by simp [nio_delete]⟩
  simp [delete_nio, hg, remove_nio, hm, nio_delete]

/-- C7 witness: concrete detach on `hubS0`; the mid state is `hubS0mid`
and the final state releases endpoint 5. -/
theorem delete_nio_remove_then_release_witness :
    hubS0mid.mapping 0 0 = none ∧
    delete_nio hubS0 0 0 7 0 = Except.ok (nio_delete hubS0mid 5) ∧
    5 ∈ (nio_delete hubS0mid 5).released :=
  let h := delete_nio_remove_then_release hubS0 0 0 7 0 5 (by decide) rfl
    (hubS0mid, 5) rfl
  ⟨h.2.1, h.2.2.2.2.1, h.2.2.2.2.2.1⟩

/-- C8: the adapter-number path parameter has no influence on any of the
five NIO/capture operations of the Ethernet-hub endpoint: for any two
adapter values the result and the state change are identical (each
handler accepts the parameter and never reads it — the hub's single
adapter is always used). -/
theorem adapter_number_irrelevant (s : HubState)
    (proj node a₁ a₂ port cfg lt : Nat) (fn : String) :
    create_nio s proj node a₁ port cfg = create_nio s proj node a₂ port cfg ∧
    delete_nio s proj node a₁ port = delete_nio s proj node a₂ port ∧
    start_capture s proj node a₁ port fn lt =
      start_capture s proj node a₂ port fn lt ∧
    stop_capture s proj node a₁ port = stop_capture s proj node a₂ port ∧
    stream_pcap_file s proj node a₁ port = stream_pcap_file s proj node a₂ port :=
  ⟨rfl, rfl, rfl, rfl, rfl⟩

/-- C9: the start, stop, and suspend handlers of the Ethernet hub are
no-ops: when the node exists each returns success with the state
unchanged (no effect on the port mapping, endpoints, or captures), and
when the node does not exist each fails not-found. -/
theorem hub_lifecycle_noops (s : HubState) (proj node : Nat) :
    ((proj, node) ∈ s.nodes →
      start_ethernet_hub s proj node = Except.ok s ∧
      stop_ethernet_hub s proj node = Except.ok s ∧
      suspend_ethernet_hub s proj node = Except.ok s) ∧
    ((proj, node) ∉ s.nodes →
      start_ethernet_hub s proj node = Except.error Err.notFound ∧
      stop_ethernet_hub s proj node = Except.error Err.notFound ∧
      suspend_ethernet_hub s proj node = Except.error Err.notFound) := by
  constructor <;> intro h <;>
    simp [start_ethernet_hub, stop_ethernet_hub, suspend_ethernet_hub,
      get_node, h]

/-- C9 witness: node `(0, 0)` exists in `hubS0`, so all three handlers
return the unchanged state; and node `(0, 9)` does not exist, so all
three fail not-found. -/
theorem hub_lifecycle_noops_witness :
    (start_ethernet_hub hubS0 0 0 = Except.ok hubS0 ∧
      stop_ethernet_hub hubS0 0 0 = Except.ok hubS0 ∧
      suspend_ethernet_hub hubS0 0 0 = Except.ok hubS0) ∧
    (start_ethernet_hub hubS0 0 9 = Except.error Err.notFound ∧
      stop_ethernet_hub hubS0 0 9 = Except.error Err.notFound ∧
      suspend_ethernet_hub hubS0 0 9 = Except.error Err.notFound) :=
  ⟨(hub_lifecycle_noops hubS0 0 0).1 (by decide),
    (hub_lifecycle_noops hubS0 0 9).2 (by decide)⟩
